import Mathlib

/-!
# frameforge `ethproxy` client: `src/ethproxy/main.go`

A shallow embedding of the ping client.  `main` talks to the outside world
through four calls (`net.Dial`, `conn.Write`, `conn.Read`, `conn.Close`) and
`fmt.Printf`.  The outside world is a parameter (`Transport`): a mock transport
whose answers are arbitrary.  Every call `main` makes is appended, together with
what the call returned, to a trace of events; the statements below are about
that trace.
-/

namespace Ethproxy

/-! ## Data -/

/-- A Go `byte`. -/
abbrev Byte := UInt8

/-- A non-nil Go `error` value (its message). `Option Error` is a Go `error`,
`none` being `nil`. -/
abbrev Error := String

/-- Go's conversion `[]byte(s)`: the UTF-8 bytes of the string. -/
def bytes (s : String) : List Byte :=
  s.toList.flatMap String.utf8EncodeChar

/-- Go's `make([]byte, n)`: `n` zero bytes, length and capacity both `n`. -/
def makeBytes (n : Nat) : List Byte :=
  List.replicate n 0

/-- Go's slice expression `s[lo:hi]` on a slice whose capacity equals its
length.  `none` is the run-time panic "slice bounds out of range", raised unless
`0 ≤ lo ≤ hi ≤ cap(s)`. -/
def slice (s : List Byte) (lo hi : Int) : Option (List Byte) :=
  if 0 ≤ lo ∧ lo ≤ hi ∧ hi ≤ (s.length : Int) then
    some ((s.take hi.toNat).drop lo.toNat)
  else
    none

/-- The contents of the buffer `p` after a callee has stored `data` into it from
index 0: a callee receives the slice by value and can change its elements but
not its length. -/
def store (p data : List Byte) : List Byte :=
  data.take p.length ++ p.drop data.length

/-! ## `fmt.Printf` -/

/-- An operand of `fmt.Printf`: a `string` or a `[]byte`. -/
inductive Arg where
  | str (s : String)
  | bytes (b : List Byte)
deriving DecidableEq

/-- What the verb `%s` writes for an operand: the bytes of a string, the bytes
of a byte slice as they are. -/
def Arg.render : Arg → List Byte
  | .str s => Ethproxy.bytes s
  | .bytes b => b

/-- Formatting loop of `fmt.Sprintf` over the characters of the format.  Only
the verb `%s` (the one `main` uses) is interpreted; a `%s` without operand is
written as Go writes it.  Every other character is copied. -/
def sprintfAux : List Char → List Arg → List Byte
  | [], _ => []
  | '%' :: 's' :: rest, a :: as => a.render ++ sprintfAux rest as
  | '%' :: 's' :: rest, [] => bytes "%!s(MISSING)" ++ sprintfAux rest []
  | c :: rest, as => String.utf8EncodeChar c ++ sprintfAux rest as

/-- The bytes `fmt.Printf(format, args...)` writes to standard output. -/
def Sprintf (format : String) (args : List Arg) : List Byte :=
  sprintfAux format.toList args

/-! ## The transport and the trace -/

/-- Result of `conn.Write(b)`: the connection afterwards, the count and the
error. -/
structure WriteResult (σ : Type) where
  conn : σ
  n : Int
  err : Option Error

/-- Result of `conn.Read(p)`: the connection afterwards, the bytes the call
stored into `p`, the count and the error.  The count is whatever the callee
says: nothing ties it to `data` or to `len(p)`. -/
structure ReadResult (σ : Type) where
  conn : σ
  data : List Byte
  n : Int
  err : Option Error

/-- The world outside `main`, as a mock: `σ` is the state of a connection. -/
structure Transport (σ : Type) where
  dial : String → String → Except Error σ
  write : σ → List Byte → WriteResult σ
  read : σ → List Byte → ReadResult σ

/-- One observable step of a run: a call on the transport with what it
returned, or a write to standard output. -/
inductive Event where
  | dial (network address : String) (err : Option Error)
  | write (b : List Byte) (n : Int) (err : Option Error)
  | read (len : Nat) (p : List Byte) (n : Int) (err : Option Error)
  | close
  | print (out : List Byte)
deriving DecidableEq

/-- A run so far: the events in the order they happened, and whether the
goroutine is panicking. -/
structure Run where
  events : List Event
  panicked : Bool
deriving DecidableEq

/-- Append an event to the run. -/
def Run.log (r : Run) (e : Event) : Run :=
  { r with events := r.events ++ [e] }

/-- The error of an `Except` as a Go `error`. -/
def errOf {α : Type} : Except Error α → Option Error
  | .error e => some e
  | .ok _ => none

/-- The call `net.Dial(network, address)`. -/
def Dial {σ : Type} (T : Transport σ) (r : Run) (network address : String) :
    Run × Except Error σ :=
  let d := T.dial network address
  (r.log (.dial network address (errOf d)), d)

/-- The call `conn.Write(b)`. -/
def Write {σ : Type} (T : Transport σ) (r : Run) (conn : σ) (b : List Byte) :
    Run × WriteResult σ :=
  let w := T.write conn b
  (r.log (.write b w.n w.err), w)

/-- The call `conn.Read(p)`; the second component is `p` after the call. -/
def Read {σ : Type} (T : Transport σ) (r : Run) (conn : σ) (p : List Byte) :
    Run × List Byte × ReadResult σ :=
  let rd := T.read conn p
  let p' := store p rd.data
  (r.log (.read p.length p' rd.n rd.err), p', rd)

/-- The call `conn.Close()`; its result is discarded by `defer`. -/
def Close (r : Run) : Run :=
  r.log .close

/-- The call `fmt.Printf(format, args...)`. -/
def Printf (r : Run) (format : String) (args : List Arg) : Run :=
  r.log (.print (Sprintf format args))

/-- A run-time panic: the function stops; deferred calls still run. -/
def Run.panic (r : Run) : Run :=
  { r with panicked := true }

/-! ## `main` -/

/-- Lines 18 to 29 of `main.go`: the statements after `defer conn.Close()`. -/
def mainBody {σ : Type} (T : Transport σ) (conn : σ) (r : Run) : Run :=
  let w := Write T r conn (bytes "ping")
  match w.2.err with
  | some _ => Printf w.1 "failed to write ping" []
  | none =>
    let buf := makeBytes 64
    let rd := Read T w.1 w.2.conn buf
    match rd.2.2.err with
    | some _ => Printf rd.1 "failed to receive data" []
    | none =>
      match slice rd.2.1 0 rd.2.2.n with
      | none => rd.1.panic
      | some s => Printf rd.1 "received: %s" [.bytes s]

/-- The function `main` of `main.go`.  The deferred `conn.Close()` runs when the
statements after it are left, by `return`, by reaching the end or by a panic. -/
def main {σ : Type} (T : Transport σ) : Run :=
  let sockPath := "/tmp/frameforge.socket"
  let d := Dial T ⟨[], false⟩ "unix" sockPath
  match d.2 with
  | .error _ => Printf d.1 "failed to connect to %s" [.str sockPath]
  | .ok conn => Close (mainBody T conn d.1)

/-! ## Observers of a run -/

/-- Whether the event is a write to standard output. -/
def Event.isPrint : Event → Bool
  | .print _ => true
  | _ => false

/-- The messages written to standard output, one per `Printf` call, in order. -/
def Run.printed (r : Run) : List (List Byte) :=
  r.events.filterMap fun e => match e with
    | .print out => some out
    | _ => none

/-- Everything written to standard output during the run. -/
def Run.stdout (r : Run) : List Byte :=
  r.printed.flatten

/-- The calls on the transport (dial, write, read, close), in order. -/
def Run.transport (r : Run) : List Event :=
  r.events.filter fun e => !e.isPrint

/-- The arguments (network, address) of the dial calls, in order. -/
def Run.dials (r : Run) : List (String × String) :=
  r.events.filterMap fun e => match e with
    | .dial network address _ => some (network, address)
    | _ => none

/-- The payloads of the write calls, in order. -/
def Run.writes (r : Run) : List (List Byte) :=
  r.events.filterMap fun e => match e with
    | .write b _ _ => some b
    | _ => none

/-- The lengths of the buffers handed to the read calls, in order. -/
def Run.reads (r : Run) : List Nat :=
  r.events.filterMap fun e => match e with
    | .read len _ _ _ => some len
    | _ => none

/-- How many times close was called. -/
def Run.closes (r : Run) : Nat :=
  r.events.count .close

/-- A dial returned a non-nil error. -/
def Run.dialFailed (r : Run) : Bool :=
  r.events.any fun e => match e with
    | .dial _ _ (some _) => true
    | _ => false

/-- A dial returned a nil error. -/
def Run.dialOk (r : Run) : Bool :=
  r.events.any fun e => match e with
    | .dial _ _ none => true
    | _ => false

/-- A write returned a non-nil error. -/
def Run.writeFailed (r : Run) : Bool :=
  r.events.any fun e => match e with
    | .write _ _ (some _) => true
    | _ => false

/-- A write returned a nil error. -/
def Run.writeOk (r : Run) : Bool :=
  r.events.any fun e => match e with
    | .write _ _ none => true
    | _ => false

/-- A read returned a non-nil error. -/
def Run.readFailed (r : Run) : Bool :=
  r.events.any fun e => match e with
    | .read _ _ _ (some _) => true
    | _ => false

/-- A read returned a nil error. -/
def Run.readOk (r : Run) : Bool :=
  r.events.any fun e => match e with
    | .read _ _ _ none => true
    | _ => false

/-- The contract of `io.Reader` on the reads that returned a nil error: the
count `n` satisfies `0 ≤ n ≤ len(p)`.  Every `net.Conn` obtained from
`net.Dial` honours it; a mock transport need not. -/
def Run.readsInRange (r : Run) : Bool :=
  r.events.all fun e => match e with
    | .read len _ n none => decide (0 ≤ n ∧ n ≤ (len : Int))
    | _ => true

/-! ## Mock transports -/

/-- A transport that answers from a script: the error of the dial, the count
and error of the write, and the bytes, count and error of the read. -/
def scripted (dialErr : Option Error) (writeN : Int) (writeErr : Option Error)
    (data : List Byte) (readN : Int) (readErr : Option Error) : Transport Unit where
  dial := fun _ _ => match dialErr with
    | some e => .error e
    | none => .ok ()
  write := fun _ _ => ⟨(), writeN, writeErr⟩
  read := fun _ _ => ⟨(), data, readN, readErr⟩

/-- No listener at the socket path: the dial fails. -/
def noListener : Transport Unit :=
  scripted (some "connect: no such file or directory") 0 none [] 0 none

/-- The peer has gone away: the write fails. -/
def brokenPipe : Transport Unit :=
  scripted none 0 (some "broken pipe") [] 0 none

/-- The peer sends three bytes and the read reports them with an error. -/
def resetPeer : Transport Unit :=
  scripted none 4 none (bytes "pon") 3 (some "connection reset by peer")

/-- A listener that reads the request and answers the four bytes `pong`. -/
def pongPeer : Transport Unit :=
  scripted none 4 none (bytes "pong") 4 none

/-- The peer closes without sending: the read fails with `EOF` and count 0. -/
def silentPeer : Transport Unit :=
  scripted none 4 none [] 0 (some "EOF")

/-- A reader outside the `io.Reader` contract: it reports 65 bytes for a
64-byte buffer, with a nil error. -/
def rogueReader : Transport Unit :=
  scripted none 4 none (bytes "pong") 65 none

/-- The five ways a run of `main` can go, with the whole trace of each. -/
inductive MainShape : Run → Prop where
  | dialFailed (e : Error) :
      MainShape ⟨[.dial "unix" "/tmp/frameforge.socket" (some e),
        .print (bytes "failed to connect to /tmp/frameforge.socket")], false⟩
  | writeFailed (wn : Int) (e : Error) :
      MainShape ⟨[.dial "unix" "/tmp/frameforge.socket" none,
        .write (bytes "ping") wn (some e),
        .print (bytes "failed to write ping"), .close], false⟩
  | readFailed (wn : Int) (p : List Byte) (n : Int) (e : Error) (hp : p.length = 64) :
      MainShape ⟨[.dial "unix" "/tmp/frameforge.socket" none,
        .write (bytes "ping") wn none, .read 64 p n (some e),
        .print (bytes "failed to receive data"), .close], false⟩
  | received (wn : Int) (p : List Byte) (n : Int) (hp : p.length = 64)
      (h0 : 0 ≤ n) (h1 : n ≤ 64) :
      MainShape ⟨[.dial "unix" "/tmp/frameforge.socket" none,
        .write (bytes "ping") wn none, .read 64 p n none,
        .print (bytes "received: " ++ p.take n.toNat), .close], false⟩
  | outOfRange (wn : Int) (p : List Byte) (n : Int) (hp : p.length = 64)
      (h : n < 0 ∨ 64 < n) :
      MainShape ⟨[.dial "unix" "/tmp/frameforge.socket" none,
        .write (bytes "ping") wn none, .read 64 p n none, .close], true⟩

/-! ## Lemmas on the primitives -/

theorem makeBytes_length (n : Nat) : (makeBytes n).length = n := by
  simp [makeBytes]

theorem store_length (p data : List Byte) : (store p data).length = p.length := by
  simp only [store, List.length_append, List.length_take, List.length_drop]
  omega

theorem slice_zero_some (p : List Byte) (n : Int) (h0 : 0 ≤ n) (h1 : n ≤ (p.length : Int)) :
    slice p 0 n = some (p.take n.toNat) := by
  simp [slice, h0, h1]

theorem slice_zero_none (p : List Byte) (n : Int) (h : n < 0 ∨ (p.length : Int) < n) :
    slice p 0 n = none := by
  simp only [slice, ite_eq_right_iff]
  intro h'
  omega

theorem sprintf_connect :
    Sprintf "failed to connect to %s" [.str "/tmp/frameforge.socket"]
      = bytes "failed to connect to /tmp/frameforge.socket" := by
  decide

theorem sprintf_write : Sprintf "failed to write ping" [] = bytes "failed to write ping" := by
  decide

theorem sprintf_read : Sprintf "failed to receive data" [] = bytes "failed to receive data" := by
  decide

theorem sprintf_received (s : List Byte) :
    Sprintf "received: %s" [.bytes s] = bytes "received: " ++ s := by
  simp [Sprintf, sprintfAux, Arg.render]
  rfl

theorem main_shape {σ : Type} (T : Transport σ) : MainShape (main T) := by
  rcases hd : T.dial "unix" "/tmp/frameforge.socket" with e | conn
  · have h : main T = ⟨[.dial "unix" "/tmp/frameforge.socket" (some e),
        .print (bytes "failed to connect to /tmp/frameforge.socket")], false⟩ := by
      simp [main, Dial, hd, Printf, Run.log, errOf, sprintf_connect]
    rw [h]
    exact .dialFailed e
  · rcases hw : (T.write conn (bytes "ping")).err with _ | e
    · rcases hr : (T.read (T.write conn (bytes "ping")).conn (makeBytes 64)).err with _ | e
      · by_cases hn : 0 ≤ (T.read (T.write conn (bytes "ping")).conn (makeBytes 64)).n ∧
            (T.read (T.write conn (bytes "ping")).conn (makeBytes 64)).n ≤ 64
        · have h := slice_zero_some
            (store (makeBytes 64) (T.read (T.write conn (bytes "ping")).conn (makeBytes 64)).data)
            _ hn.1 (by rw [store_length, makeBytes_length]; exact_mod_cast hn.2)
          have h' : main T = ⟨[.dial "unix" "/tmp/frameforge.socket" none,
              .write (bytes "ping") (T.write conn (bytes "ping")).n none,
              .read 64 (store (makeBytes 64)
                (T.read (T.write conn (bytes "ping")).conn (makeBytes 64)).data)
                (T.read (T.write conn (bytes "ping")).conn (makeBytes 64)).n none,
              .print (bytes "received: " ++ (store (makeBytes 64)
                (T.read (T.write conn (bytes "ping")).conn (makeBytes 64)).data).take
                (T.read (T.write conn (bytes "ping")).conn (makeBytes 64)).n.toNat),
              .close], false⟩ := by
            simp [main, Dial, hd, mainBody, Write, Read, Close, hw, hr, h, Printf, Run.log, errOf,
              sprintf_received, makeBytes_length]
          rw [h']
          exact .received _ _ _ (by rw [store_length, makeBytes_length]) hn.1 hn.2
        · have h := slice_zero_none
            (store (makeBytes 64) (T.read (T.write conn (bytes "ping")).conn (makeBytes 64)).data)
            (T.read (T.write conn (bytes "ping")).conn (makeBytes 64)).n
            (by rw [store_length, makeBytes_length]; omega)
          have h' : main T = ⟨[.dial "unix" "/tmp/frameforge.socket" none,
              .write (bytes "ping") (T.write conn (bytes "ping")).n none,
              .read 64 (store (makeBytes 64)
                (T.read (T.write conn (bytes "ping")).conn (makeBytes 64)).data)
                (T.read (T.write conn (bytes "ping")).conn (makeBytes 64)).n none,
              .close], true⟩ := by
            simp [main, Dial, hd, mainBody, Write, Read, Close, hw, hr, h, Run.panic, Run.log, errOf,
              makeBytes_length]
          rw [h']
          exact .outOfRange _ _ _ (by rw [store_length, makeBytes_length]) (by omega)
      · have h' : main T = ⟨[.dial "unix" "/tmp/frameforge.socket" none,
            .write (bytes "ping") (T.write conn (bytes "ping")).n none,
            .read 64 (store (makeBytes 64)
              (T.read (T.write conn (bytes "ping")).conn (makeBytes 64)).data)
              (T.read (T.write conn (bytes "ping")).conn (makeBytes 64)).n (some e),
            .print (bytes "failed to receive data"), .close], false⟩ := by
          simp [main, Dial, hd, mainBody, Write, Read, Close, hw, hr, Printf, Run.log, errOf,
            sprintf_read, makeBytes_length]
        rw [h']
        exact .readFailed _ _ _ e (by rw [store_length, makeBytes_length])
    · have h' : main T = ⟨[.dial "unix" "/tmp/frameforge.socket" none,
          .write (bytes "ping") (T.write conn (bytes "ping")).n (some e),
          .print (bytes "failed to write ping"), .close], false⟩ := by
        simp [main, Dial, hd, mainBody, Write, Close, hw, Printf, Run.log, errOf, sprintf_write]
      rw [h']
      exact .writeFailed _ e

theorem bytes_received :
    bytes "received: " = [114, 101, 99, 101, 105, 118, 101, 100, 58, 32] := by
  decide

theorem received_ne_of_head (x m : List Byte) (hm : m.head? = some 102) :
    bytes "received: " ++ x ≠ m := by
  intro h
  rw [← h, bytes_received] at hm
  simp at hm

theorem received_prefix (x : List Byte) : bytes "received: " <+: bytes "received: " ++ x :=
  List.prefix_append _ _

/-! ## The claims -/

/-- C1: in every run of `main` whose dial fails, standard output is exactly
`failed to connect to /tmp/frameforge.socket`, which contains the socket path,
and the run makes no write, no read and no close on any connection. -/
theorem dial_failure_report {σ : Type} (T : Transport σ)
    (hd : (main T).dialFailed = true) :
    (main T).stdout = bytes "failed to connect to /tmp/frameforge.socket" ∧
      bytes "/tmp/frameforge.socket" <:+: (main T).stdout ∧
      (main T).writes = [] ∧ (main T).reads = [] ∧ (main T).closes = 0 := by
  have hs := main_shape T
  generalize main T = r at hs hd
  cases hs <;> simp [Run.dialFailed] at hd
  refine ⟨by simp [Run.stdout, Run.printed], ?_, by simp [Run.writes], by simp [Run.reads],
    by simp [Run.closes]⟩
  exact ⟨bytes "failed to connect to ", [], by simp [Run.stdout, Run.printed]; decide⟩

/-- Witness of C1: with no listener at the socket path the run prints the
connect-failure message and touches no connection. -/
theorem dial_failure_report_witness :
    (main noListener).dialFailed = true ∧
      (main noListener).stdout = bytes "failed to connect to /tmp/frameforge.socket" ∧
      (main noListener).writes = [] ∧ (main noListener).reads = [] ∧
      (main noListener).closes = 0 :=
  have h := dial_failure_report noListener (by decide)
  ⟨by decide, h.1, h.2.2⟩

/-- C2: in every run of `main` in which dial, write and read succeed and the
read returns a count `n` with `0 ≤ n ≤ 64`, standard output is exactly
`received: ` followed by the first `n` bytes of the 64-byte buffer `p` as the
read left it: the output has `10 + n` bytes and none of them comes from index
`n` of the buffer or beyond. -/
theorem received_report {σ : Type} (T : Transport σ) (len : Nat) (p : List Byte) (n : Int)
    (hd : (main T).dialOk = true) (hw : (main T).writeOk = true)
    (hr : Event.read len p n none ∈ (main T).events) (h0 : 0 ≤ n) (h1 : n ≤ 64) :
    (main T).stdout = bytes "received: " ++ p.take n.toNat ∧
      p.length = 64 ∧ (main T).stdout.length = 10 + n.toNat := by
  have hs := main_shape T
  generalize main T = r at hs hd hw hr
  cases hs <;> simp at hr
  · rename_i wn q m hq hm0 hm1
    obtain ⟨-, rfl, rfl⟩ := hr
    have hlen : (bytes "received: ").length = 10 := by decide
    refine ⟨by simp [Run.stdout, Run.printed], hq, ?_⟩
    simp only [Run.stdout, Run.printed, List.filterMap_cons, List.filterMap_nil,
      List.flatten_cons, List.flatten_nil, List.append_nil, List.length_append, hlen,
      List.length_take, hq]
    omega
  · omega

/-- Witness of C2: a peer that answers the four bytes `pong` makes the run print
`received: pong`. -/
theorem received_report_witness :
    (main pongPeer).stdout = bytes "received: pong" :=
  (received_report pongPeer 64 (store (makeBytes 64) (bytes "pong")) 4
    (by decide) (by decide) (by decide) (by decide) (by decide)).1.trans (by decide)

/-- C3: in every run of `main` whose dial succeeds, close is called exactly
once, whatever happens afterwards (the write fails, the read fails, both
succeed, or the slice panics). -/
theorem close_exactly_once {σ : Type} (T : Transport σ)
    (hd : (main T).dialOk = true) :
    (main T).closes = 1 := by
  have hs := main_shape T
  generalize main T = r at hs hd
  cases hs <;> simp [Run.dialOk] at hd <;> simp [Run.closes]

/-- Witness of C3 on the three continuations: the write fails, the read fails,
both succeed. -/
theorem close_exactly_once_witness :
    (main brokenPipe).closes = 1 ∧ (main silentPeer).closes = 1 ∧
      (main pongPeer).closes = 1 :=
  ⟨close_exactly_once brokenPipe (by decide), close_exactly_once silentPeer (by decide),
    close_exactly_once pongPeer (by decide)⟩

/-- C4: in every run of `main` whose dial succeeds and whose write returns an
error, standard output is exactly `failed to write ping` and no read is
made. -/
theorem write_failure_report {σ : Type} (T : Transport σ)
    (hd : (main T).dialOk = true) (hw : (main T).writeFailed = true) :
    (main T).stdout = bytes "failed to write ping" ∧ (main T).reads = [] := by
  have hs := main_shape T
  generalize main T = r at hs hd hw
  cases hs <;> simp [Run.writeFailed] at hw
  exact ⟨by simp [Run.stdout, Run.printed], by simp [Run.reads]⟩

/-- Witness of C4: a transport whose write fails. -/
theorem write_failure_report_witness :
    (main brokenPipe).stdout = bytes "failed to write ping" ∧ (main brokenPipe).reads = [] :=
  write_failure_report brokenPipe (by decide) (by decide)

/-- C5: every run of `main` makes at most one read, with a buffer of length
64, and makes one exactly when the dial and the write succeeded; what that read
returns never leads to a second one. -/
theorem single_read {σ : Type} (T : Transport σ) :
    (main T).reads.length ≤ 1 ∧
      (main T).reads = (if (main T).dialOk && (main T).writeOk then [64] else []) ∧
      ((main T).reads.length = 1 ↔ (main T).dialOk = true ∧ (main T).writeOk = true) := by
  have hs := main_shape T
  generalize main T = r at hs
  cases hs <;> simp [Run.reads, Run.dialOk, Run.writeOk]

/-- Witness of C5: one read of 64 bytes when dial and write succeed (whether the
read then fails or not), none when the dial or the write fails. -/
theorem single_read_witness :
    (main pongPeer).reads = [64] ∧ (main silentPeer).reads = [64] ∧
      (main brokenPipe).reads = [] ∧ (main noListener).reads = [] :=
  ⟨(single_read pongPeer).2.1.trans (by decide), (single_read silentPeer).2.1.trans (by decide),
    (single_read brokenPipe).2.1.trans (by decide), (single_read noListener).2.1.trans (by decide)⟩

/-- C6: every run of `main` dials once, with network `unix` and address
`/tmp/frameforge.socket`; when the dial succeeds the run makes exactly one
write, whose payload is the four bytes 0x70 0x69 0x6E 0x67 (`ping`) and nothing
else. -/
theorem dial_and_write_payload {σ : Type} (T : Transport σ) :
    (main T).dials = [("unix", "/tmp/frameforge.socket")] ∧
      ((main T).dialOk = true → (main T).writes = [[0x70, 0x69, 0x6E, 0x67]]) := by
  have hping : bytes "ping" = [0x70, 0x69, 0x6E, 0x67] := by decide
  have hs := main_shape T
  generalize main T = r at hs
  cases hs <;> simp [Run.dials, Run.writes, Run.dialOk, hping]

/-- Witness of C6: the payload written to a peer that accepts the connection. -/
theorem dial_and_write_payload_witness :
    (main pongPeer).dials = [("unix", "/tmp/frameforge.socket")] ∧
      (main pongPeer).writes = [[0x70, 0x69, 0x6E, 0x67]] :=
  ⟨(dial_and_write_payload pongPeer).1, (dial_and_write_payload pongPeer).2 (by decide)⟩

/-- C7: in every run of `main` in which dial and write succeed and the read
returns a non-nil error, standard output is exactly `failed to receive data`,
whatever count `n` and buffer contents `p` come with the error. -/
theorem read_failure_report {σ : Type} (T : Transport σ) (len : Nat) (p : List Byte) (n : Int)
    (e : Error) (hd : (main T).dialOk = true) (hw : (main T).writeOk = true)
    (hr : Event.read len p n (some e) ∈ (main T).events) :
    (main T).stdout = bytes "failed to receive data" := by
  have hs := main_shape T
  generalize main T = r at hs hd hw hr
  cases hs <;> simp at hr
  simp [Run.stdout, Run.printed]

/-- Witness of C7: a read that reports 3 bytes together with an error; the
three bytes stay out of the output. -/
theorem read_failure_report_witness :
    Event.read 64 (store (makeBytes 64) (bytes "pon")) 3 (some "connection reset by peer")
        ∈ (main resetPeer).events ∧
      (main resetPeer).stdout = bytes "failed to receive data" :=
  ⟨by decide, read_failure_report resetPeer 64 (store (makeBytes 64) (bytes "pon")) 3
    "connection reset by peer" (by decide) (by decide) (by decide)⟩

/-- C8: every run of `main` whose successful read honours the `io.Reader`
contract (`0 ≤ n ≤ len(p)`, as every connection returned by `net.Dial` does)
prints exactly one message `m`, and `m` tells the outcome: it is the
connect-failure message iff the dial failed, the write-failure message iff the
dial succeeded and the write failed, the read-failure message iff dial and write
succeeded and the read failed, and it starts with `received: ` iff all three
succeeded.  The three failure messages are pairwise different and none starts
with `received: `. -/
theorem one_message_per_outcome {σ : Type} (T : Transport σ)
    (hc : (main T).readsInRange = true) :
    (∃ m, (main T).printed = [m] ∧
      (m = bytes "failed to connect to /tmp/frameforge.socket" ↔ (main T).dialFailed = true) ∧
      (m = bytes "failed to write ping" ↔
        (main T).dialOk = true ∧ (main T).writeFailed = true) ∧
      (m = bytes "failed to receive data" ↔
        (main T).dialOk = true ∧ (main T).writeOk = true ∧ (main T).readFailed = true) ∧
      (bytes "received: " <+: m ↔
        (main T).dialOk = true ∧ (main T).writeOk = true ∧ (main T).readOk = true)) ∧
    bytes "failed to connect to /tmp/frameforge.socket" ≠ bytes "failed to write ping" ∧
    bytes "failed to connect to /tmp/frameforge.socket" ≠ bytes "failed to receive data" ∧
    bytes "failed to write ping" ≠ bytes "failed to receive data" ∧
    ¬ bytes "received: " <+: bytes "failed to connect to /tmp/frameforge.socket" ∧
    ¬ bytes "received: " <+: bytes "failed to write ping" ∧
    ¬ bytes "received: " <+: bytes "failed to receive data" := by
  have h12 : bytes "failed to connect to /tmp/frameforge.socket" ≠ bytes "failed to write ping" := by
    decide
  have h13 : bytes "failed to connect to /tmp/frameforge.socket"
      ≠ bytes "failed to receive data" := by
    decide
  have h23 : bytes "failed to write ping" ≠ bytes "failed to receive data" := by decide
  have p1 : ¬ bytes "received: " <+: bytes "failed to connect to /tmp/frameforge.socket" := by
    decide
  have p2 : ¬ bytes "received: " <+: bytes "failed to write ping" := by decide
  have p3 : ¬ bytes "received: " <+: bytes "failed to receive data" := by decide
  refine ⟨?_, h12, h13, h23, p1, p2, p3⟩
  have hs := main_shape T
  generalize main T = r at hs hc
  cases hs with
  | dialFailed e =>
    exact ⟨_, rfl, by simp [Run.dialFailed], by simp [Run.dialOk, h12], by simp [Run.dialOk, h13],
      by simp [Run.dialOk, p1]⟩
  | writeFailed wn e =>
    exact ⟨_, rfl, by simp [Run.dialFailed, h12.symm], by simp [Run.dialOk, Run.writeFailed],
      by simp [Run.writeOk, h23], by simp [Run.writeOk, p2]⟩
  | readFailed wn p n e hp =>
    exact ⟨_, rfl, by simp [Run.dialFailed, h13.symm], by simp [Run.writeFailed, h23.symm],
      by simp [Run.dialOk, Run.writeOk, Run.readFailed], by simp [Run.readOk, p3]⟩
  | received wn p n hp h0 h1 =>
    exact ⟨_, rfl,
      by simpa [Run.dialFailed] using received_ne_of_head _ _ (by decide),
      by simpa [Run.writeFailed] using received_ne_of_head _ _ (by decide),
      by simpa [Run.readFailed] using received_ne_of_head _ _ (by decide),
      by simp [Run.dialOk, Run.writeOk, Run.readOk]⟩
  | outOfRange wn p n hp h =>
    simp [Run.readsInRange] at hc
    omega

/-- Witness of C8: the peer that answers `pong` honours the contract, and the
one message of that run starts with `received: `. -/
theorem one_message_per_outcome_witness :
    (main pongPeer).readsInRange = true ∧
      ∃ m, (main pongPeer).printed = [m] ∧ bytes "received: " <+: m := by
  obtain ⟨m, hm, -, -, -, h4⟩ := (one_message_per_outcome pongPeer (by decide)).1
  exact ⟨by decide, m, hm, h4.2 (by decide)⟩

/-- C9: in every run of `main` the calls on the transport are, in order, one of
four sequences: a failed dial; a dial, a failed write, a close; a dial, a write,
a failed read, a close; a dial, a write, a read, a close.  When close occurs it
is the last event of the whole run and occurs once, so every message is printed
before it; in a run whose successful read honours the `io.Reader` contract the
event just before the close is the one message of the run. -/
theorem transport_sequence {σ : Type} (T : Transport σ) :
    ((∃ e, (main T).transport = [.dial "unix" "/tmp/frameforge.socket" (some e)]) ∨
      (∃ wn e, (main T).transport = [.dial "unix" "/tmp/frameforge.socket" none,
        .write (bytes "ping") wn (some e), .close]) ∨
      (∃ wn p n e, (main T).transport = [.dial "unix" "/tmp/frameforge.socket" none,
        .write (bytes "ping") wn none, .read 64 p n (some e), .close]) ∨
      (∃ wn p n, (main T).transport = [.dial "unix" "/tmp/frameforge.socket" none,
        .write (bytes "ping") wn none, .read 64 p n none, .close])) ∧
    (Event.close ∈ (main T).events →
      ∃ pre, (main T).events = pre ++ [.close] ∧ Event.close ∉ pre) ∧
    ((main T).readsInRange = true → Event.close ∈ (main T).events →
      ∃ pre m, (main T).events = pre ++ [.print m, .close] ∧ (main T).printed = [m]) := by
  have hs := main_shape T
  generalize main T = r at hs
  cases hs with
  | dialFailed e =>
    exact ⟨Or.inl ⟨e, by simp [Run.transport, Event.isPrint]⟩, by simp, by simp⟩
  | writeFailed wn e =>
    refine ⟨Or.inr (Or.inl ⟨wn, e, by simp [Run.transport, Event.isPrint]⟩), fun _ => ?_,
      fun _ _ => ?_⟩
    · exact ⟨[.dial "unix" "/tmp/frameforge.socket" none, .write (bytes "ping") wn (some e),
        .print (bytes "failed to write ping")], by simp, by simp⟩
    · exact ⟨[.dial "unix" "/tmp/frameforge.socket" none, .write (bytes "ping") wn (some e)],
        bytes "failed to write ping", rfl, by simp [Run.printed]⟩
  | readFailed wn p n e hp =>
    refine ⟨Or.inr (Or.inr (Or.inl ⟨wn, p, n, e, by simp [Run.transport, Event.isPrint]⟩)),
      fun _ => ?_, fun _ _ => ?_⟩
    · exact ⟨[.dial "unix" "/tmp/frameforge.socket" none, .write (bytes "ping") wn none,
        .read 64 p n (some e), .print (bytes "failed to receive data")], by simp, by simp⟩
    · exact ⟨[.dial "unix" "/tmp/frameforge.socket" none, .write (bytes "ping") wn none,
        .read 64 p n (some e)], bytes "failed to receive data", rfl, by simp [Run.printed]⟩
  | received wn p n hp h0 h1 =>
    refine ⟨Or.inr (Or.inr (Or.inr ⟨wn, p, n, by simp [Run.transport, Event.isPrint]⟩)),
      fun _ => ?_, fun _ _ => ?_⟩
    · exact ⟨[.dial "unix" "/tmp/frameforge.socket" none, .write (bytes "ping") wn none,
        .read 64 p n none, .print (bytes "received: " ++ p.take n.toNat)], by simp, by simp⟩
    · exact ⟨[.dial "unix" "/tmp/frameforge.socket" none, .write (bytes "ping") wn none,
        .read 64 p n none], bytes "received: " ++ p.take n.toNat, rfl, by simp [Run.printed]⟩
  | outOfRange wn p n hp h =>
    refine ⟨Or.inr (Or.inr (Or.inr ⟨wn, p, n, by simp [Run.transport, Event.isPrint]⟩)),
      fun _ => ?_, fun hc _ => ?_⟩
    · exact ⟨[.dial "unix" "/tmp/frameforge.socket" none, .write (bytes "ping") wn none,
        .read 64 p n none], by simp, by simp⟩
    · simp [Run.readsInRange] at hc
      omega

/-- Witness of C9: the run against the peer that answers `pong` ends with its
message followed by the close. -/
theorem transport_sequence_witness :
    (main pongPeer).readsInRange = true ∧ Event.close ∈ (main pongPeer).events ∧
      ∃ pre m, (main pongPeer).events = pre ++ [.print m, .close] ∧
        (main pongPeer).printed = [m] :=
  ⟨by decide, by decide, (transport_sequence pongPeer).2.2 (by decide) (by decide)⟩

/-- C10: a run of `main` reaches the out-of-range panic of `buf[0:n]` exactly
when a read that returned a nil error reported a count outside `0 ≤ n ≤ len(p)`.
For the buffer `p` and count `n` of a successful read, `0 ≤ n ≤ 64` puts the slice
in bounds (it is the first `n` bytes), and `n > 64` puts it out of range and the
run panics. -/
theorem slice_in_bounds {σ : Type} (T : Transport σ) :
    ((main T).panicked = false ↔ (main T).readsInRange = true) ∧
    (∀ len p n, Event.read len p n none ∈ (main T).events → 0 ≤ n → n ≤ 64 →
      slice p 0 n = some (p.take n.toNat)) ∧
    (∀ len p n, Event.read len p n none ∈ (main T).events → 64 < n →
      slice p 0 n = none ∧ (main T).panicked = true) := by
  have hs := main_shape T
  generalize main T = r at hs
  cases hs with
  | dialFailed e => simp [Run.readsInRange]
  | writeFailed wn e => simp [Run.readsInRange]
  | readFailed wn p n e hp => simp [Run.readsInRange]
  | received wn p n hp h0 h1 =>
    refine ⟨by simp [Run.readsInRange, h0, h1], ?_, ?_⟩
    · intro len q m hr hm0 hm1
      simp at hr
      obtain ⟨-, rfl, rfl⟩ := hr
      exact slice_zero_some _ _ hm0 (by rw [hp]; exact_mod_cast hm1)
    · intro len q m hr hm
      simp at hr
      omega
  | outOfRange wn p n hp h =>
    refine ⟨?_, ?_, ?_⟩
    · simp only [Run.readsInRange, List.all_cons, List.all_nil, Bool.and_true, Bool.true_and,
        decide_eq_true_eq]
      constructor
      · intro hf
        cases hf
      · intro hn
        exfalso
        have := hn.2
        push_cast at this
        omega
    · intro len q m hr hm0 hm1
      simp at hr
      omega
    · intro len q m hr hm
      simp at hr
      obtain ⟨-, rfl, rfl⟩ := hr
      exact ⟨slice_zero_none _ _ (Or.inr (by rw [hp]; exact_mod_cast hm)), rfl⟩

/-- Witness of C10: the peer that answers `pong` (count 4) does not make the
run panic; the reader that reports 65 bytes does. -/
theorem slice_in_bounds_witness :
    (main pongPeer).panicked = false ∧ (main rogueReader).panicked = true :=
  ⟨(slice_in_bounds pongPeer).1.2 (by decide),
    ((slice_in_bounds rogueReader).2.2 64 (store (makeBytes 64) (bytes "pong")) 65
      (by decide) (by decide)).2⟩

end Ethproxy
